import Mathlib

/-!
Shallow embedding of the performance-anomaly monitor
(`backend/app/guardian/monitor.py`): the data model (MetricSnapshot, Alert,
the bounded history/window buffers), the anomaly detector
(`detect_anomalies`), the alert dispatcher (`send_alert`) and the status
aggregator (`get_current_status`).  Metric values are modelled as rationals,
timestamps as integer epoch seconds; the bounded `collections.deque` buffers
become lists with an explicit append-and-evict operation; the fallible
external notifier collaborator becomes a function into `Except`.  Numeric
interpolation inside the Arabic f-string messages is elided (the message
text plays no role in any property below).
-/

namespace Guardian

/-- Severity levels (source enum `AlertLevel`). -/
inductive AlertLevel where
  | INFO
  | WARNING
  | CRITICAL
deriving DecidableEq

/-- The string value of a level (source: `AlertLevel(Enum)` member values). -/
def AlertLevel.value : AlertLevel → String
  | .INFO => "info"
  | .WARNING => "warning"
  | .CRITICAL => "critical"

/-- One timestamped set of metric values (source dataclass `MetricSnapshot`). -/
structure MetricSnapshot where
  timestamp : Int
  win_rate : ℚ
  profit_factor : ℚ
  sharpe_ratio : ℚ
  max_drawdown : ℚ
  expectancy : ℚ
  latency_ms : ℚ
  total_trades : Int
  winning_trades : Int
  losing_trades : Int
deriving DecidableEq

/-- An emitted alert (source dataclass `Alert`). -/
structure Alert where
  id : String
  level : AlertLevel
  metric_name : String
  current_value : ℚ
  threshold : ℚ
  deviation_percent : ℚ
  timestamp : Int
  message : String
  suggested_action : String
deriving DecidableEq

/-- The six per-metric moving-average windows (source: the
`self.moving_averages` dict of deques, one `deque(maxlen=288)` per metric). -/
structure MovingAverages where
  win_rate : List ℚ
  profit_factor : List ℚ
  sharpe_ratio : List ℚ
  max_drawdown : List ℚ
  expectancy : List ℚ
  latency_ms : List ℚ
deriving DecidableEq

/-- Dictionary lookup `self.moving_averages[name]`.  Only the six keys of the
source dict are ever used; an unknown key yields `[]` (unreachable in the
modelled call sites). -/
def MovingAverages.get (w : MovingAverages) (name : String) : List ℚ :=
  if name = "win_rate" then w.win_rate
  else if name = "profit_factor" then w.profit_factor
  else if name = "sharpe_ratio" then w.sharpe_ratio
  else if name = "max_drawdown" then w.max_drawdown
  else if name = "expectancy" then w.expectancy
  else if name = "latency_ms" then w.latency_ms
  else []

/-- The monitor's mutable state (source class `PerformanceMonitor`): the
snapshot history deque, the in-process alert log and the windows. -/
structure PerformanceMonitor where
  metrics_history : List MetricSnapshot
  alerts : List Alert
  moving_averages : MovingAverages
deriving DecidableEq

/-- Static threshold `WIN_RATE_THRESHOLD = 0.55`. -/
def WIN_RATE_THRESHOLD : ℚ := 55/100

/-- Static threshold `PROFIT_FACTOR_THRESHOLD = 1.5`. -/
def PROFIT_FACTOR_THRESHOLD : ℚ := 15/10

/-- Static threshold `SHARPE_RATIO_THRESHOLD = 1.0`. -/
def SHARPE_RATIO_THRESHOLD : ℚ := 1

/-- Static threshold `MAX_DRAWDOWN_THRESHOLD = 0.15`. -/
def MAX_DRAWDOWN_THRESHOLD : ℚ := 15/100

/-- Static threshold `EXPECTANCY_THRESHOLD = 0.0` (never consulted by
`detect_anomalies`). -/
def EXPECTANCY_THRESHOLD : ℚ := 0

/-- Static threshold `LATENCY_THRESHOLD_MS = 100`. -/
def LATENCY_THRESHOLD_MS : ℚ := 100

/-- Relative gate `DEVIATION_THRESHOLD = 0.10`. -/
def DEVIATION_THRESHOLD : ℚ := 10/100

/-- Append to a fixed-capacity FIFO, evicting the single oldest element when
the buffer is full: the semantics of `collections.deque(maxlen := cap)`
under `append`. -/
def boundedAppend {α : Type} (cap : Nat) (q : List α) (x : α) : List α :=
  if cap ≤ q.length then q.drop 1 ++ [x] else q ++ [x]

/-- The nine-field mapping returned by the metric-source collaborator
(`_fetch_bot_metrics`); `collect_metrics` reads each key with default 0,
modelled as the fields themselves. -/
structure FetchedMetrics where
  win_rate : ℚ
  profit_factor : ℚ
  sharpe_ratio : ℚ
  max_drawdown : ℚ
  expectancy : ℚ
  latency_ms : ℚ
  total_trades : Int
  winning_trades : Int
  losing_trades : Int
deriving DecidableEq

/-- `collect_metrics`: build the snapshot from the fetched mapping, append it
to the history deque (capacity 10000) and each metric's value to its window
(capacity 288); returns the updated state and the snapshot. -/
def collect_metrics (m : PerformanceMonitor) (fetched : FetchedMetrics)
    (now : Int) : PerformanceMonitor × MetricSnapshot :=
  let snapshot : MetricSnapshot :=
    ⟨now, fetched.win_rate, fetched.profit_factor, fetched.sharpe_ratio,
     fetched.max_drawdown, fetched.expectancy, fetched.latency_ms,
     fetched.total_trades, fetched.winning_trades, fetched.losing_trades⟩
  let w := m.moving_averages
  ({ m with
      metrics_history := boundedAppend 10000 m.metrics_history snapshot,
      moving_averages :=
        ⟨boundedAppend 288 w.win_rate snapshot.win_rate,
         boundedAppend 288 w.profit_factor snapshot.profit_factor,
         boundedAppend 288 w.sharpe_ratio snapshot.sharpe_ratio,
         boundedAppend 288 w.max_drawdown snapshot.max_drawdown,
         boundedAppend 288 w.expectancy snapshot.expectancy,
         boundedAppend 288 w.latency_ms snapshot.latency_ms⟩ },
   snapshot)

/-- `statistics.mean` on a list of rationals (sum divided by length). -/
def mean (l : List ℚ) : ℚ := l.sum / l.length

/-- One entry of the `checks` list of `detect_anomalies`: metric name,
current value, static threshold, desired direction (the source's `'>'` for
higher-is-better, `'<'` for lower-is-better) and message text. -/
structure Check where
  metric_name : String
  current_val : ℚ
  threshold : ℚ
  direction : Char
  msg : String
deriving DecidableEq

/-- The five checks built each cycle from the latest snapshot (the source
tracks win_rate, profit_factor, sharpe_ratio, max_drawdown and latency_ms;
expectancy has no entry). -/
def checksFor (current : MetricSnapshot) : List Check :=
  [⟨"win_rate", current.win_rate, WIN_RATE_THRESHOLD, '>',
    "انخفاض نسبة الصفقات الرابحة"⟩,
   ⟨"profit_factor", current.profit_factor, PROFIT_FACTOR_THRESHOLD, '>',
    "انخفاض معامل الربح"⟩,
   ⟨"sharpe_ratio", current.sharpe_ratio, SHARPE_RATIO_THRESHOLD, '>',
    "انخفاض نسبة شارب"⟩,
   ⟨"max_drawdown", current.max_drawdown, MAX_DRAWDOWN_THRESHOLD, '<',
    "ارتفاع التراجع الأقصى"⟩,
   ⟨"latency_ms", current.latency_ms, LATENCY_THRESHOLD_MS, '<',
    "ارتفاع التأخر"⟩]

/-- The local `ma_avg = statistics.mean(ma_values[:-1])`: the window's mean
excluding the newest sample. -/
def baselineOf (ma_values : List ℚ) : ℚ := mean ma_values.dropLast

/-- The local `deviation = abs(current_val - ma_avg) / ma_avg`. -/
def deviationOf (ma_values : List ℚ) (current_val : ℚ) : ℚ :=
  |current_val - baselineOf ma_values| / baselineOf ma_values

/-- The local `threshold_breached` flag of `detect_anomalies`. -/
def thresholdBreached (direction : Char) (current_val threshold : ℚ) : Bool :=
  if direction = '>' ∧ current_val < threshold then true
  else if direction = '<' ∧ threshold < current_val then true
  else false

/-- `_get_suggested_action`: static per-metric lookup with a generic
fallback (the unused numeric argument mirrors the source's signature). -/
def get_suggested_action (metric_name : String) (_value : ℚ) : String :=
  if metric_name = "win_rate" then
    "مراجعة منطق الدخول والخروج، فحص شروط الاستراتيجية"
  else if metric_name = "profit_factor" then
    "تعديل نسب المخاطرة/العائد، مراجعة إدارة رأس المال"
  else if metric_name = "sharpe_ratio" then
    "تقليل التقلب، إضافة فلاتر للدخول"
  else if metric_name = "max_drawdown" then
    "تفعيل وقف الخسارة الأقصى، تقليل حجم المراكز"
  else if metric_name = "latency_ms" then
    "فحص اتصال الإنترنت، مراجعة VPS/الخادم"
  else "مراجعة عامة للنظام"

/-- The body of the per-metric loop of `detect_anomalies`: skip when the
window has fewer than 12 samples, skip when the baseline is zero (the source
tests `ma_avg == 0` before ever dividing), otherwise gate on deviation and
on the breached-or-relative condition and build the alert.  The source's
locals `ma_avg`, `deviation` and `level` appear as `baselineOf`,
`deviationOf` and the inline conditional. -/
def evalCheck (ma_values : List ℚ) (now : Int) (chk : Check) : Option Alert :=
  if ma_values.length < 12 then none
  else if baselineOf ma_values = 0 then none
  else if deviationOf ma_values chk.current_val > DEVIATION_THRESHOLD then
    if thresholdBreached chk.direction chk.current_val chk.threshold = true
        ∨ deviationOf ma_values chk.current_val > 15/100 then
      some ⟨chk.metric_name ++ "_" ++ toString now,
            (if deviationOf ma_values chk.current_val < 20/100 then
              AlertLevel.WARNING else AlertLevel.CRITICAL),
            chk.metric_name, chk.current_val, chk.threshold,
            deviationOf ma_values chk.current_val * 100, now, chk.msg,
            get_suggested_action chk.metric_name chk.current_val⟩
    else none
  else none

/-- The structured payload handed to the notifier collaborator (source: the
dict literal inside `send_alert`; `typ` is the constant `'type'` entry). -/
structure AlertPayload where
  typ : String
  level : String
  message : String
  metric : String
  value : ℚ
  deviation : ℚ
  action : String
deriving DecidableEq

/-- The payload built from an alert inside `send_alert`. -/
def payloadOf (a : Alert) : AlertPayload :=
  ⟨"guardian_alert", a.level.value, a.message, a.metric_name,
   a.current_value, a.deviation_percent, a.suggested_action⟩

/-- `_save_alert_to_db`: returns immediately when `db` is `None`, and its
body is otherwise an unimplemented TODO with no effect, so the persistence
step never fails in the source. -/
def save_alert_to_db (_a : Alert) : Except Unit Unit := .ok ()

/-- `send_alert`: persist, then forward to the notifier when one is
configured.  The source wraps neither step in an exception handler, so a
notifier failure propagates to the caller (`Except.error`). -/
def send_alert (notifier : Option (AlertPayload → Except Unit Unit))
    (a : Alert) : Except Unit Unit := do
  save_alert_to_db a
  match notifier with
  | some send => send (payloadOf a)
  | none => pure ()

/-- The `for metric_name, ... in checks` loop of `detect_anomalies`: each
emitted alert is dispatched immediately (`await self.send_alert(alert)`),
and a dispatch failure aborts the cycle with the exception. -/
def runChecks (mas : MovingAverages)
    (notifier : Option (AlertPayload → Except Unit Unit)) (now : Int) :
    List Check → Except Unit (List Alert)
  | [] => .ok []
  | chk :: rest =>
    match evalCheck (mas.get chk.metric_name) now chk with
    | none => runChecks mas notifier now rest
    | some a =>
      match send_alert notifier a with
      | .error e => .error e
      | .ok _ =>
        match runChecks mas notifier now rest with
        | .error e => .error e
        | .ok tail => .ok (a :: tail)

/-- Fallback snapshot for the list indexing `self.metrics_history[-1]`
(unreachable: the caller has already checked the history holds at least 288
snapshots). -/
def dummySnapshot : MetricSnapshot := ⟨0, 0, 0, 0, 0, 0, 0, 0, 0, 0⟩

/-- `detect_anomalies`: return no alerts while the history holds fewer than
288 snapshots; otherwise evaluate the five checks against the latest
snapshot, dispatching each emitted alert, and extend the in-process alert
log with the cycle's alerts (`self.alerts.extend(alerts)` runs only when no
dispatch raised). -/
def detect_anomalies (m : PerformanceMonitor)
    (notifier : Option (AlertPayload → Except Unit Unit)) (now : Int) :
    Except Unit (List Alert × PerformanceMonitor) :=
  if m.metrics_history.length < 288 then .ok ([], m)
  else
    match runChecks m.moving_averages notifier now
        (checksFor (m.metrics_history.getLastD dummySnapshot)) with
    | .error e => .error e
    | .ok alerts => .ok (alerts, { m with alerts := m.alerts ++ alerts })

/-- The two shapes of dict `get_current_status` returns: the initializing
one (status and message only) and the full report. -/
inductive StatusDict where
  | initializing (message : String)
  | report (status : String) (last_check : Int) (current : MetricSnapshot)
      (alerts_24h : Nat) (critical_alerts : Nat) (total_trades : Int)
deriving DecidableEq

/-- The `'status'` entry of either dict shape. -/
def StatusDict.status : StatusDict → String
  | .initializing _ => "initializing"
  | .report s _ _ _ _ _ => s

/-- `get_current_status`: "initializing" on an empty history; otherwise
filter the alert log to the trailing 24 hours (86400 seconds), count the
CRITICAL ones, and roll up critical / warning / healthy. -/
def get_current_status (m : PerformanceMonitor) (now : Int) : StatusDict :=
  if m.metrics_history = [] then .initializing "جمع البيانات..."
  else
    let current := m.metrics_history.getLastD dummySnapshot
    let recent_alerts := m.alerts.filter
      (fun a => decide (now - 86400 < a.timestamp))
    let critical_count := (recent_alerts.filter
      (fun a => decide (a.level = AlertLevel.CRITICAL))).length
    let status := if critical_count > 0 then "critical"
      else if recent_alerts.length > 3 then "warning"
      else "healthy"
    .report status current.timestamp current recent_alerts.length
      critical_count current.total_trades

/-! Concrete inputs used by the witness and counterexample theorems below. -/

/-- Empty windows, as at construction. -/
def emptyWindows : MovingAverages := ⟨[], [], [], [], [], []⟩

/-- A freshly constructed monitor: empty history, empty log, empty windows. -/
def emptyMonitor : PerformanceMonitor := ⟨[], [], emptyWindows⟩

/-- A win_rate window of eleven samples at 0.58 followed by the current 0.40
(the spec's worked example). -/
def steadyWindow : List ℚ := List.replicate 11 (58/100) ++ [40/100]

/-- The win_rate check of the spec's worked example: current 0.40 against
the static threshold 0.55, higher-is-better. -/
def winRateCheck : Check :=
  ⟨"win_rate", 40/100, WIN_RATE_THRESHOLD, '>',
   "انخفاض نسبة الصفقات الرابحة"⟩

/-- The alert `evalCheck` emits for `steadyWindow` / `winRateCheck`:
deviation 9/29 ≈ 0.3103, severity CRITICAL, deviation_percent 900/29. -/
def steadyAlert : Alert :=
  ⟨"win_rate_0", .CRITICAL, "win_rate", 40/100, 55/100, 900/29, 0,
   "انخفاض نسبة الصفقات الرابحة",
   "مراجعة منطق الدخول والخروج، فحص شروط الاستراتيجية"⟩

/-- A window whose baseline (mean of the first eleven samples) is zero. -/
def zeroWindow : List ℚ := List.replicate 12 0

/-- A monitor past both cold-start gates: 288 snapshots of history and a
twelve-sample win_rate window. -/
def m288 : PerformanceMonitor :=
  ⟨List.replicate 287 dummySnapshot ++ [dummySnapshot], [],
   ⟨steadyWindow, [], [], [], [], []⟩⟩

/-- The alert a detection cycle on `m288` emits: the current win_rate 0 is a
full relative deviation (100%) below the 0.58 baseline. -/
def alert0 : Alert :=
  ⟨"win_rate_0", .CRITICAL, "win_rate", 0, 55/100, 100, 0,
   "انخفاض نسبة الصفقات الرابحة",
   "مراجعة منطق الدخول والخروج، فحص شروط الاستراتيجية"⟩

/-- A notifier collaborator whose send always fails. -/
def failingNotifier : AlertPayload → Except Unit Unit := fun _ => .error ()

/-- A snapshot distinguishable from `dummySnapshot` by its timestamp. -/
def snapA : MetricSnapshot := ⟨1, 0, 0, 0, 0, 0, 0, 0, 0, 0⟩

/-- A full history buffer: `snapA` (the oldest) followed by 9999 dummies. -/
def m9 : PerformanceMonitor :=
  ⟨snapA :: List.replicate 9999 dummySnapshot, [], emptyWindows⟩

/-- An all-zero fetched metrics mapping. -/
def fetched0 : FetchedMetrics := ⟨0, 0, 0, 0, 0, 0, 0, 0, 0⟩

/-- A CRITICAL alert with timestamp 50. -/
def critAlert : Alert := ⟨"x", .CRITICAL, "win_rate", 0, 0, 0, 50, "", ""⟩

/-- A monitor holding one snapshot and one recent CRITICAL alert. -/
def statusMonitor : PerformanceMonitor :=
  ⟨[dummySnapshot], [critAlert], emptyWindows⟩

end Guardian

namespace Guardian

theorem MovingAverages.get_win_rate (w : MovingAverages) :
    w.get "win_rate" = w.win_rate := rfl

theorem MovingAverages.get_profit_factor (w : MovingAverages) :
    w.get "profit_factor" = w.profit_factor := rfl

theorem MovingAverages.get_sharpe_ratio (w : MovingAverages) :
    w.get "sharpe_ratio" = w.sharpe_ratio := rfl

theorem MovingAverages.get_max_drawdown (w : MovingAverages) :
    w.get "max_drawdown" = w.max_drawdown := rfl

theorem MovingAverages.get_latency_ms (w : MovingAverages) :
    w.get "latency_ms" = w.latency_ms := rfl

/-- C1: for every tracked metric evaluated in a detection cycle, given the
window holds at least 12 samples and the baseline is nonzero, the per-metric
evaluation emits an alert if and only if deviation > 0.10 and (the static
threshold is breached or deviation > 0.15); in particular, when
deviation ≤ 0.10 no alert is emitted regardless of the static threshold. -/
theorem C1_emission_gate (ma_values : List ℚ) (now : Int) (chk : Check)
    (hlen : 12 ≤ ma_values.length) (hbase : baselineOf ma_values ≠ 0) :
    (evalCheck ma_values now chk).isSome = true ↔
      (1/10 < deviationOf ma_values chk.current_val ∧
        (thresholdBreached chk.direction chk.current_val chk.threshold = true ∨
          15/100 < deviationOf ma_values chk.current_val)) := by
  have hD : DEVIATION_THRESHOLD = 1/10 := by norm_num [DEVIATION_THRESHOLD]
  unfold evalCheck
  rw [if_neg (by omega : ¬ ma_values.length < 12), if_neg hbase, hD]
  by_cases h1 : 1/10 < deviationOf ma_values chk.current_val
  · rw [if_pos h1]
    by_cases h2 : thresholdBreached chk.direction chk.current_val chk.threshold = true
        ∨ deviationOf ma_values chk.current_val > 15/100
    · rw [if_pos h2]
      exact iff_of_true rfl ⟨h1, h2⟩
    · rw [if_neg h2]
      simp only [Option.isSome_none, Bool.false_eq_true, false_iff]
      tauto
  · rw [if_neg h1]
    simp only [Option.isSome_none, Bool.false_eq_true, false_iff]
    tauto

theorem C1_emission_gate_witness :
    12 ≤ steadyWindow.length ∧ baselineOf steadyWindow ≠ 0 ∧
    ((evalCheck steadyWindow 0 winRateCheck).isSome = true ↔
      (1/10 < deviationOf steadyWindow winRateCheck.current_val ∧
        (thresholdBreached winRateCheck.direction winRateCheck.current_val
            winRateCheck.threshold = true ∨
          15/100 < deviationOf steadyWindow winRateCheck.current_val))) :=
  ⟨by decide, by norm_num [baselineOf, mean, steadyWindow, List.replicate],
   C1_emission_gate steadyWindow 0 winRateCheck (by decide)
     (by norm_num [baselineOf, mean, steadyWindow, List.replicate])⟩

/-- C3: the detector emits no alert in a cycle in which the history buffer
holds fewer than 288 snapshots (it returns an empty alert list and leaves
the monitor unchanged), and the per-metric evaluation emits no alert for a
metric whose moving-average window holds fewer than 12 samples, regardless
of the metric values. -/
theorem C3_cold_start_gates (m : PerformanceMonitor)
    (notifier : Option (AlertPayload → Except Unit Unit)) (now : Int)
    (ma_values : List ℚ) (chk : Check)
    (hshort : m.metrics_history.length < 288) (hwin : ma_values.length < 12) :
    detect_anomalies m notifier now = .ok ([], m) ∧
    evalCheck ma_values now chk = none := by
  constructor
  · unfold detect_anomalies
    rw [if_pos hshort]
  · unfold evalCheck
    rw [if_pos hwin]

theorem C3_cold_start_gates_witness :
    emptyMonitor.metrics_history.length < 288 ∧ [(1:ℚ)].length < 12 ∧
    detect_anomalies emptyMonitor none 0 = .ok ([], emptyMonitor) ∧
    evalCheck [(1:ℚ)] 0 winRateCheck = none :=
  ⟨by decide, by decide,
   (C3_cold_start_gates emptyMonitor none 0 [(1:ℚ)] winRateCheck (by decide) (by decide)).1,
   (C3_cold_start_gates emptyMonitor none 0 [(1:ℚ)] winRateCheck (by decide) (by decide)).2⟩

/-- C5: if the baseline for a metric computes to exactly 0, the
per-metric evaluation skips the metric and emits no alert; the zero test
precedes the division in the source, so the division is never executed with
a zero divisor (the embedding is total and mirrors that branch order). -/
theorem C5_zero_baseline_skips (ma_values : List ℚ) (now : Int) (chk : Check)
    (hbase : baselineOf ma_values = 0) :
    evalCheck ma_values now chk = none := by
  unfold evalCheck
  by_cases h1 : ma_values.length < 12
  · rw [if_pos h1]
  · rw [if_neg h1, if_pos hbase]

theorem C5_zero_baseline_skips_witness :
    baselineOf zeroWindow = 0 ∧ evalCheck zeroWindow 0 winRateCheck = none :=
  ⟨by norm_num [baselineOf, mean, zeroWindow, List.replicate],
   C5_zero_baseline_skips zeroWindow 0 winRateCheck
     (by norm_num [baselineOf, mean, zeroWindow, List.replicate])⟩

/-- Concrete evaluation of the per-metric check on the worked example. -/
theorem evalCheck_steady : evalCheck steadyWindow 0 winRateCheck = some steadyAlert := by
  norm_num [evalCheck, deviationOf, baselineOf, mean, steadyWindow, List.replicate,
    DEVIATION_THRESHOLD, thresholdBreached, WIN_RATE_THRESHOLD, winRateCheck,
    get_suggested_action, steadyAlert, abs]
  rfl

/-- C4: for every emitted alert, the deviation underneath its
deviation_percent field is |current − baseline| / baseline, where baseline
is the arithmetic mean of the metric's window contents excluding the newly
appended current sample, i.e. the sum of all window elements but the last,
divided by (window length − 1). -/
theorem C4_baseline_excludes_current (ma_values : List ℚ) (now : Int) (chk : Check)
    (a : Alert) (h : evalCheck ma_values now chk = some a) :
    a.deviation_percent =
      |chk.current_val - ma_values.dropLast.sum / ((ma_values.length : ℚ) - 1)| /
        (ma_values.dropLast.sum / ((ma_values.length : ℚ) - 1)) * 100 := by
  unfold evalCheck at h
  split_ifs at h with h1 h2 h3 h4 h5 <;> try exact Option.noConfusion h
  all_goals
    rw [Option.some.injEq] at h
    subst h
    have hcast : (ma_values.dropLast.length : ℚ) = (ma_values.length : ℚ) - 1 := by
      rw [List.length_dropLast, Nat.cast_sub (by omega : 1 ≤ ma_values.length)]
      norm_num
    simp only [Alert.deviation_percent, deviationOf, baselineOf, mean, hcast]

theorem C4_baseline_excludes_current_witness :
    steadyAlert.deviation_percent =
      |winRateCheck.current_val - steadyWindow.dropLast.sum / ((steadyWindow.length : ℚ) - 1)| /
        (steadyWindow.dropLast.sum / ((steadyWindow.length : ℚ) - 1)) * 100 :=
  C4_baseline_excludes_current steadyWindow 0 winRateCheck steadyAlert evalCheck_steady

/-- C6: every emitted alert has severity WARNING exactly when
0.10 < deviation < 0.20, severity CRITICAL exactly when deviation ≥ 0.20,
and a deviation_percent field equal to deviation × 100. -/
theorem C6_severity_bands (ma_values : List ℚ) (now : Int) (chk : Check) (a : Alert)
    (h : evalCheck ma_values now chk = some a) :
    (a.level = AlertLevel.WARNING ↔
      (1/10 < deviationOf ma_values chk.current_val ∧
        deviationOf ma_values chk.current_val < 2/10)) ∧
    (a.level = AlertLevel.CRITICAL ↔ 2/10 ≤ deviationOf ma_values chk.current_val) ∧
    a.deviation_percent = deviationOf ma_values chk.current_val * 100 := by
  have hD : DEVIATION_THRESHOLD = 1/10 := by norm_num [DEVIATION_THRESHOLD]
  unfold evalCheck at h
  rw [hD] at h
  split_ifs at h with h1 h2 h3 h4 h5 <;> try exact Option.noConfusion h
  · rw [Option.some.injEq] at h
    subst h
    refine ⟨iff_of_true rfl ⟨h3, by linarith⟩, ?_, rfl⟩
    exact iff_of_false (fun hf => AlertLevel.noConfusion hf) (by intro hge; linarith)
  · rw [Option.some.injEq] at h
    subst h
    refine ⟨?_, iff_of_true rfl (by linarith), rfl⟩
    exact iff_of_false (fun hf => AlertLevel.noConfusion hf) (by intro hlt; linarith [hlt.2])

theorem C6_severity_bands_witness :
    (steadyAlert.level = AlertLevel.WARNING ↔
      (1/10 < deviationOf steadyWindow winRateCheck.current_val ∧
        deviationOf steadyWindow winRateCheck.current_val < 2/10)) ∧
    (steadyAlert.level = AlertLevel.CRITICAL ↔
      2/10 ≤ deviationOf steadyWindow winRateCheck.current_val) ∧
    steadyAlert.deviation_percent = deviationOf steadyWindow winRateCheck.current_val * 100 :=
  C6_severity_bands steadyWindow 0 winRateCheck steadyAlert evalCheck_steady

/-- C7: threshold_breached is true exactly when the direction is
higher-is-better and the current value is strictly below the static
threshold, or lower-is-better and the current value is strictly above it;
and on the spec's worked example (win_rate current 0.40, prior-11-sample
baseline 0.58, threshold 0.55) an alert is emitted with severity CRITICAL,
a breached threshold and deviation_percent 900/29, within 0.01 of 31.03. -/
theorem C7_threshold_breached_def :
    (∀ (direction : Char) (current_val threshold : ℚ),
      thresholdBreached direction current_val threshold = true ↔
        ((direction = '>' ∧ current_val < threshold) ∨
         (direction = '<' ∧ threshold < current_val))) ∧
    (∃ a : Alert, evalCheck steadyWindow 0 winRateCheck = some a ∧
      a.level = AlertLevel.CRITICAL ∧
      thresholdBreached winRateCheck.direction winRateCheck.current_val
        winRateCheck.threshold = true ∧
      a.deviation_percent = 900/29 ∧ |a.deviation_percent - 3103/100| < 1/100) := by
  constructor
  · intro direction current_val threshold
    unfold thresholdBreached
    split_ifs with h1 h2
    · exact iff_of_true rfl (Or.inl h1)
    · exact iff_of_true rfl (Or.inr h2)
    · exact iff_of_false (fun hf => by simp at hf) (by tauto)
  · refine ⟨steadyAlert, evalCheck_steady, rfl, ?_, rfl,
      by rw [show steadyAlert.deviation_percent - 3103/100 = 13/2900 from by norm_num [steadyAlert],
        abs_of_pos (by norm_num : (0:ℚ) < 13/2900)]; norm_num⟩
    norm_num [thresholdBreached, winRateCheck, WIN_RATE_THRESHOLD]

/-- C8: get_current_status returns status "initializing" when the history
buffer is empty; otherwise, over the alerts whose timestamp falls within
the trailing 24 hours, the status is "critical" iff one of them is
CRITICAL, "warning" iff none is CRITICAL and more than 3 exist, and
"healthy" iff none is CRITICAL and at most 3 exist. -/
theorem C8_status_rollup (m : PerformanceMonitor) (now : Int) :
    (m.metrics_history = [] →
      get_current_status m now = .initializing "جمع البيانات...") ∧
    (m.metrics_history ≠ [] →
      (((get_current_status m now).status = "critical" ↔
          ∃ a ∈ m.alerts, now - 86400 < a.timestamp ∧ a.level = AlertLevel.CRITICAL) ∧
       ((get_current_status m now).status = "warning" ↔
          (¬ ∃ a ∈ m.alerts, now - 86400 < a.timestamp ∧ a.level = AlertLevel.CRITICAL) ∧
          3 < (m.alerts.filter (fun a => decide (now - 86400 < a.timestamp))).length) ∧
       ((get_current_status m now).status = "healthy" ↔
          (¬ ∃ a ∈ m.alerts, now - 86400 < a.timestamp ∧ a.level = AlertLevel.CRITICAL) ∧
          (m.alerts.filter (fun a => decide (now - 86400 < a.timestamp))).length ≤ 3))) := by
  constructor
  · intro he
    unfold get_current_status
    rw [if_pos he]
  · intro hne
    unfold get_current_status
    rw [if_neg hne]
    dsimp only
    have hex : (0 < ((m.alerts.filter (fun a => decide (now - 86400 < a.timestamp))).filter
        (fun a => decide (a.level = AlertLevel.CRITICAL))).length) ↔
        ∃ a ∈ m.alerts, now - 86400 < a.timestamp ∧ a.level = AlertLevel.CRITICAL := by
      rw [List.length_pos_iff_exists_mem]
      constructor
      · rintro ⟨a, ha⟩
        simp only [List.mem_filter, decide_eq_true_eq] at ha
        exact ⟨a, ha.1.1, ha.1.2, ha.2⟩
      · rintro ⟨a, ha, ht, hl⟩
        exact ⟨a, by simp only [List.mem_filter, decide_eq_true_eq]; exact ⟨⟨ha, ht⟩, hl⟩⟩
    by_cases hc : 0 < ((m.alerts.filter (fun a => decide (now - 86400 < a.timestamp))).filter
        (fun a => decide (a.level = AlertLevel.CRITICAL))).length
    · rw [if_pos hc]
      exact ⟨iff_of_true rfl (hex.mp hc),
        iff_of_false (fun hf => absurd (show ("critical":String) = "warning" from hf) (by decide))
          (fun hx => hx.1 (hex.mp hc)),
        iff_of_false (fun hf => absurd (show ("critical":String) = "healthy" from hf) (by decide))
          (fun hx => hx.1 (hex.mp hc))⟩
    · rw [if_neg hc]
      by_cases hw : 3 < (m.alerts.filter (fun a => decide (now - 86400 < a.timestamp))).length
      · rw [if_pos hw]
        exact ⟨iff_of_false (fun hf => absurd (show ("warning":String) = "critical" from hf) (by decide))
          (fun hx => hc (hex.mpr hx)),
          iff_of_true rfl ⟨fun hx => hc (hex.mpr hx), hw⟩,
          iff_of_false (fun hf => absurd (show ("warning":String) = "healthy" from hf) (by decide))
          (fun hx => absurd hx.2 (by omega))⟩
      · rw [if_neg hw]
        exact ⟨iff_of_false (fun hf => absurd (show ("healthy":String) = "critical" from hf) (by decide))
          (fun hx => hc (hex.mpr hx)),
          iff_of_false (fun hf => absurd (show ("healthy":String) = "warning" from hf) (by decide))
          (fun hx => absurd hx.2 (by omega)),
          iff_of_true rfl ⟨fun hx => hc (hex.mpr hx), by omega⟩⟩

theorem C8_status_rollup_witness :
    statusMonitor.metrics_history ≠ [] ∧
    ((get_current_status statusMonitor 100).status = "critical" ↔
      ∃ a ∈ statusMonitor.alerts, (100:Int) - 86400 < a.timestamp ∧
        a.level = AlertLevel.CRITICAL) :=
  ⟨fun h => List.noConfusion h,
   ((C8_status_rollup statusMonitor 100).2 (fun h => List.noConfusion h)).1⟩

/-- Appending to a buffer at capacity drops the head and admits the new
element at the tail. -/
theorem boundedAppend_of_full {α : Type} (cap : Nat) (q : List α) (x : α)
    (h : q.length = cap) : boundedAppend cap q x = q.drop 1 ++ [x] := by
  unfold boundedAppend
  rw [if_pos (by omega)]

/-- A bounded append never grows the buffer past a positive capacity. -/
theorem boundedAppend_length_le {α : Type} (cap : Nat) (q : List α) (x : α)
    (hcap : 1 ≤ cap) (h : q.length ≤ cap) :
    (boundedAppend cap q x).length ≤ cap := by
  unfold boundedAppend
  split_ifs with h1
  · rw [List.length_append, List.length_drop]
    simp only [List.length_singleton]
    omega
  · rw [List.length_append]
    simp only [List.length_singleton]
    omega

/-- C9: a collection cycle keeps the history buffer within its capacity
10000 and every metric window within its capacity 288; appending to a full
history evicts exactly the single oldest snapshot before admitting the new
one, so after appending a 10001st snapshot the length remains 10000 and the
evicted snapshot is no longer retrievable from the buffer. -/
theorem C9_capacity_invariants (m : PerformanceMonitor) (fetched : FetchedMetrics)
    (now : Int) (name : String) (s : MetricSnapshot) (t : List MetricSnapshot) :
    (m.metrics_history.length ≤ 10000 →
      (collect_metrics m fetched now).1.metrics_history.length ≤ 10000) ∧
    ((m.moving_averages.get name).length ≤ 288 →
      ((collect_metrics m fetched now).1.moving_averages.get name).length ≤ 288) ∧
    (m.metrics_history.length = 10000 →
      (collect_metrics m fetched now).1.metrics_history.length = 10000 ∧
      (collect_metrics m fetched now).1.metrics_history =
        m.metrics_history.drop 1 ++ [(collect_metrics m fetched now).2]) ∧
    (m.metrics_history = s :: t → m.metrics_history.length = 10000 → s ∉ t →
      s ≠ (collect_metrics m fetched now).2 →
      s ∉ (collect_metrics m fetched now).1.metrics_history) := by
  refine ⟨?_, ?_, ?_, ?_⟩
  · intro h
    exact boundedAppend_length_le 10000 m.metrics_history _ (by omega) h
  · intro h
    unfold collect_metrics MovingAverages.get
    unfold MovingAverages.get at h
    dsimp only
    split_ifs at h ⊢ <;>
      first
        | exact boundedAppend_length_le 288 _ _ (by omega) h
        | exact h
  · intro h
    constructor
    · rw [show (collect_metrics m fetched now).1.metrics_history =
          boundedAppend 10000 m.metrics_history (collect_metrics m fetched now).2 from rfl,
        boundedAppend_of_full 10000 m.metrics_history _ h]
      rw [List.length_append, List.length_drop]
      simp only [List.length_singleton]
      omega
    · exact boundedAppend_of_full 10000 m.metrics_history _ h
  · intro hcons hfull hnt hne
    rw [show (collect_metrics m fetched now).1.metrics_history =
        boundedAppend 10000 m.metrics_history (collect_metrics m fetched now).2 from rfl,
      boundedAppend_of_full 10000 m.metrics_history _ hfull, hcons]
    simp only [List.drop_one, List.tail_cons, List.mem_append, List.mem_singleton]
    rintro (hmem | rfl)
    · exact hnt hmem
    · exact hne rfl

theorem C9_capacity_invariants_witness :
    m9.metrics_history.length = 10000 ∧
    (collect_metrics m9 fetched0 0).1.metrics_history.length = 10000 ∧
    snapA ∉ (collect_metrics m9 fetched0 0).1.metrics_history :=
  ⟨by rw [show m9.metrics_history = snapA :: List.replicate 9999 dummySnapshot from rfl,
      List.length_cons, List.length_replicate],
   ((C9_capacity_invariants m9 fetched0 0 "win_rate" snapA
        (List.replicate 9999 dummySnapshot)).2.2.1
      (by rw [show m9.metrics_history = snapA :: List.replicate 9999 dummySnapshot from rfl,
          List.length_cons, List.length_replicate])).1,
   (C9_capacity_invariants m9 fetched0 0 "win_rate" snapA
        (List.replicate 9999 dummySnapshot)).2.2.2 rfl
      (by rw [show m9.metrics_history = snapA :: List.replicate 9999 dummySnapshot from rfl,
          List.length_cons, List.length_replicate])
      (fun hmem => absurd (List.eq_of_mem_replicate hmem)
        (fun he => absurd (congrArg MetricSnapshot.timestamp he) (by decide)))
      (fun he => absurd (congrArg MetricSnapshot.timestamp he) (by decide))⟩

/-- An emitted alert carries its check's metric name. -/
theorem evalCheck_metric_name (ma_values : List ℚ) (now : Int) (chk : Check)
    (a : Alert) (h : evalCheck ma_values now chk = some a) :
    a.metric_name = chk.metric_name := by
  unfold evalCheck at h
  split_ifs at h <;> try exact Option.noConfusion h
  all_goals
    rw [Option.some.injEq] at h
    subst h
    rfl

/-- Every alert a successful check loop returns was emitted by the
evaluation of one of its checks. -/
theorem runChecks_mem (mas : MovingAverages)
    (nf : Option (AlertPayload → Except Unit Unit)) (now : Int) :
    ∀ (checks : List Check) (l : List Alert) (a : Alert),
      runChecks mas nf now checks = .ok l → a ∈ l →
      ∃ chk ∈ checks, evalCheck (mas.get chk.metric_name) now chk = some a
  | [], l, a, h, ha => by
    simp only [runChecks, Except.ok.injEq] at h
    subst h
    exact absurd ha (List.not_mem_nil a)
  | chk :: rest, l, a, h, ha => by
    simp only [runChecks] at h
    split at h
    · obtain ⟨c, hc, hcc⟩ := runChecks_mem mas nf now rest l a h ha
      exact ⟨c, List.mem_cons_of_mem _ hc, hcc⟩
    · rename_i b he
      split at h
      · exact Except.noConfusion h
      · split at h
        · exact Except.noConfusion h
        · rename_i tail hr
          simp only [Except.ok.injEq] at h
          subst h
          rcases List.mem_cons.mp ha with rfl | hmem
          · exact ⟨chk, List.mem_cons_self chk rest, he⟩
          · obtain ⟨c, hc, hcc⟩ := runChecks_mem mas nf now rest tail a hr hmem
            exact ⟨c, List.mem_cons_of_mem _ hc, hcc⟩

/-- C10: every alert a detection cycle emits names one of the five
tracked metrics (win_rate, profit_factor, sharpe_ratio, max_drawdown,
latency_ms); in particular, although expectancy has a static threshold
constant and its own window, no alert is ever emitted for expectancy. -/
theorem C10_tracked_metric_names (m : PerformanceMonitor)
    (notifier : Option (AlertPayload → Except Unit Unit)) (now : Int)
    (alerts : List Alert) (m2 : PerformanceMonitor) (a : Alert)
    (h : detect_anomalies m notifier now = .ok (alerts, m2)) (ha : a ∈ alerts) :
    a.metric_name ∈ ["win_rate", "profit_factor", "sharpe_ratio",
      "max_drawdown", "latency_ms"] ∧ a.metric_name ≠ "expectancy" := by
  unfold detect_anomalies at h
  split_ifs at h with h1
  · simp only [Except.ok.injEq, Prod.mk.injEq] at h
    rw [← h.1] at ha
    exact absurd ha (List.not_mem_nil a)
  · split at h
    · exact Except.noConfusion h
    · rename_i l hr
      simp only [Except.ok.injEq, Prod.mk.injEq] at h
      rw [← h.1] at ha
      obtain ⟨chk, hc, hcc⟩ := runChecks_mem m.moving_averages notifier now _ l a hr ha
      have hname := evalCheck_metric_name _ now chk a hcc
      rw [hname]
      simp only [checksFor, List.mem_cons, List.not_mem_nil, or_false] at hc
      rcases hc with rfl | rfl | rfl | rfl | rfl <;> refine ⟨by simp, ?_⟩ <;>
        dsimp only <;> decide

set_option maxRecDepth 20000 in
/-- A full detection cycle on `m288` with no notifier configured: the
win_rate check fires (current 0 against baseline 0.58), every other
window is still in cold start, and the alert log gains the one alert. -/
theorem detect_m288_none :
    detect_anomalies m288 none 0 = .ok ([alert0], { m288 with alerts := [alert0] }) := by
  norm_num [detect_anomalies, m288, runChecks, checksFor, evalCheck,
    MovingAverages.get_win_rate, MovingAverages.get_profit_factor,
    MovingAverages.get_sharpe_ratio, MovingAverages.get_max_drawdown,
    MovingAverages.get_latency_ms,
    steadyWindow, dummySnapshot, baselineOf, mean, deviationOf, thresholdBreached,
    DEVIATION_THRESHOLD, WIN_RATE_THRESHOLD, PROFIT_FACTOR_THRESHOLD,
    SHARPE_RATIO_THRESHOLD, MAX_DRAWDOWN_THRESHOLD, LATENCY_THRESHOLD_MS,
    send_alert, save_alert_to_db, payloadOf, get_suggested_action, alert0,
    List.replicate, abs, List.getLastD_concat]
  rfl

theorem C10_tracked_metric_names_witness :
    alert0.metric_name ∈ ["win_rate", "profit_factor", "sharpe_ratio",
      "max_drawdown", "latency_ms"] ∧ alert0.metric_name ≠ "expectancy" :=
  C10_tracked_metric_names m288 none 0 [alert0] { m288 with alerts := [alert0] }
    alert0 detect_m288_none (List.mem_singleton_self alert0)

/-- Dispatch succeeds whenever the configured notifier does (the persistence
stub cannot fail). -/
theorem send_alert_ok (nf : Option (AlertPayload → Except Unit Unit)) (a : Alert)
    (hok : ∀ send, nf = some send → ∀ p, send p = .ok ()) :
    send_alert nf a = .ok () := by
  unfold send_alert save_alert_to_db
  cases nf with
  | none => rfl
  | some send => exact hok send rfl (payloadOf a)

/-- With a never-failing notifier the check loop always succeeds. -/
theorem runChecks_ok (mas : MovingAverages)
    (nf : Option (AlertPayload → Except Unit Unit)) (now : Int)
    (hok : ∀ send, nf = some send → ∀ p, send p = .ok ()) :
    ∀ checks : List Check, ∃ l, runChecks mas nf now checks = .ok l
  | [] => ⟨[], rfl⟩
  | chk :: rest => by
    obtain ⟨l, hl⟩ := runChecks_ok mas nf now hok rest
    cases he : evalCheck (mas.get chk.metric_name) now chk with
    | none =>
      refine ⟨l, ?_⟩
      unfold runChecks
      rw [he]
      exact hl
    | some a =>
      refine ⟨a :: l, ?_⟩
      unfold runChecks
      rw [he]
      show (match send_alert nf a with
        | .error e => .error e
        | .ok _ =>
          match runChecks mas nf now rest with
          | .error e => .error e
          | .ok tail => .ok (a :: tail)) = Except.ok (a :: l)
      rw [send_alert_ok nf a hok, hl]

set_option maxRecDepth 40000 in
/-- C2 counterexample: with a notifier whose send fails, dispatching an
alert raises to the caller (send_alert returns an error), and a full
detection cycle on a monitor past cold start aborts with that error — so the
emitted alert never reaches the in-process alert log. -/
theorem C2_dispatch_raises :
    send_alert (some failingNotifier) alert0 = .error () ∧
    detect_anomalies m288 (some failingNotifier) 0 = .error () := by
  refine ⟨rfl, ?_⟩
  norm_num [detect_anomalies, m288, runChecks, checksFor, evalCheck,
    MovingAverages.get_win_rate, MovingAverages.get_profit_factor,
    MovingAverages.get_sharpe_ratio, MovingAverages.get_max_drawdown,
    MovingAverages.get_latency_ms,
    steadyWindow, dummySnapshot, baselineOf, mean, deviationOf, thresholdBreached,
    DEVIATION_THRESHOLD, WIN_RATE_THRESHOLD, PROFIT_FACTOR_THRESHOLD,
    SHARPE_RATIO_THRESHOLD, MAX_DRAWDOWN_THRESHOLD, LATENCY_THRESHOLD_MS,
    send_alert, save_alert_to_db, payloadOf, get_suggested_action, failingNotifier,
    List.replicate, abs, List.getLastD_concat]
  rfl

/-- C2 (amended): the persistence step is a no-op stub that cannot fail,
and when the notifier is absent or never fails, a detection cycle raises
nothing and appends exactly the cycle's emitted alerts to the in-process
alert log; a notifier failure, however, propagates to the caller and the
log is left unchanged (see the counterexample). -/
theorem C2_dispatch_appends (m : PerformanceMonitor)
    (nf : Option (AlertPayload → Except Unit Unit)) (now : Int)
    (hok : ∀ send, nf = some send → ∀ p, send p = .ok ()) :
    ∃ alerts, detect_anomalies m nf now =
      .ok (alerts, { m with alerts := m.alerts ++ alerts }) := by
  unfold detect_anomalies
  by_cases h1 : m.metrics_history.length < 288
  · rw [if_pos h1]
    exact ⟨[], by rw [List.append_nil]⟩
  · rw [if_neg h1]
    obtain ⟨l, hl⟩ := runChecks_ok m.moving_averages nf now hok
      (checksFor (m.metrics_history.getLastD dummySnapshot))
    exact ⟨l, by rw [hl]⟩

theorem C2_dispatch_appends_witness :
    ∃ alerts, detect_anomalies emptyMonitor none 0 =
      .ok (alerts, { emptyMonitor with alerts := emptyMonitor.alerts ++ alerts }) :=
  C2_dispatch_appends emptyMonitor none 0 (fun _send h _p => Option.noConfusion h)

end Guardian
